import Mathlib

/-!
# Verification of the NIFTY option-scanner core

Shallow embedding of the repository's core logic:

* `data_manager.py` — `InMemoryOITracker` (bounded snapshot store with
  time-tolerant lookback) and the `RedisBrain` percentage-change arithmetic;
* `utils.py` — `calculate_percentage_change`;
* `analyzers.py` — `OIAnalyzer.classify_oi_velocity`,
  `OIAnalyzer.analyze_otm_levels`, `OIAnalyzer.analyze_oi_with_price`,
  `VolumeAnalyzer.detect_volume_spike`,
  `TechnicalAnalyzer.validate_signal_with_vwap`;
* `signal_engine.py` — `detect_reversal`, `detect_trap`, `get_pcr_bias`,
  `SignalGenerator.generate` / `_check_ce_buy` / `_check_pe_buy`,
  `SignalValidator.should_execute` / `record_signal`;
* `main.py` — the per-cycle OI-change arithmetic of
  `NiftyTradingBot.scan_market` and its composition of the indicator
  computations.

Python floats are embedded as rationals (`ℚ`), Python ints as `ℤ`/`ℕ`.
Wall-clock readings (`datetime.now(IST)`) are made explicit parameters
(seconds or minutes, as noted at each definition); the `.replace(second=0,
microsecond=0)` truncation is floor division by 60.  Log strings and the
human-readable `desc`/`details` fields, which never influence control flow
or numeric results, are not modelled; enumerated Python strings are embedded
as inductive types, and the `'BULLISH' in s`-style substring tests on them
are embedded as case-exact Boolean functions over those types.
-/

/-- Python `int(float)` truncates toward zero. -/
def truncQ (q : ℚ) : ℤ := if 0 ≤ q then ⌊q⌋ else ⌈q⌉

-- ==================== config.py constants ====================

def SCAN_INTERVAL : ℤ := 60

def MIN_OI_5M_FOR_ENTRY : ℚ := 2
def MIN_OI_15M_FOR_ENTRY : ℚ := 5/2
def MIN_OI_30M_FOR_ENTRY : ℚ := 3
def STRONG_OI_5M_THRESHOLD : ℚ := 7/2
def STRONG_OI_15M_THRESHOLD : ℚ := 5
def ATM_OI_THRESHOLD : ℚ := 3

def VELOCITY_ACCELERATION_MIN : ℚ := 5
def VELOCITY_ACCELERATION_STRONG : ℚ := 8
def VELOCITY_DECELERATION_MIN : ℚ := 5
def VELOCITY_MONSTER_15M : ℚ := 8
def VELOCITY_MONSTER_30M : ℚ := 8
def VELOCITY_EXHAUSTION_30M : ℚ := 6
def VELOCITY_EXHAUSTION_15M : ℚ := 2

def VOL_SPIKE_STRONG : ℚ := 3

def PCR_BULLISH : ℚ := 6/5
def PCR_BEARISH : ℚ := 4/5
def PCR_OVERHEATED : ℚ := 7/10
def PCR_BALANCED_BULL : ℚ := 9/10
def PCR_NEUTRAL_HIGH : ℚ := 11/10
def PCR_BALANCED_BEAR : ℚ := 13/10
def PCR_OVERSOLD : ℚ := 13/10

def ATR_TARGET_MULTIPLIER : ℚ := 5/2
def ATR_SL_MULTIPLIER : ℚ := 3/2
def ATR_SL_GAMMA_MULTIPLIER : ℚ := 2

def VWAP_BUFFER : ℚ := 10
def VWAP_DISTANCE_MAX_ATR_MULTIPLE : ℚ := 3
def VWAP_STRICT_MODE : Bool := true
def MIN_VWAP_SCORE : ℤ := 70

def MIN_CANDLE_SIZE : ℚ := 5

def OTM_RESISTANCE_OFFSET : ℤ := 100
def OTM_SUPPORT_OFFSET : ℤ := 100
def OTM_HIGH_OI_THRESHOLD : ℤ := 1000000

def SAME_STRIKE_COOLDOWN_MINUTES : ℚ := 10
def SAME_DIRECTION_COOLDOWN_MINUTES : ℚ := 3

def USE_PREMIUM_SL : Bool := true
def PREMIUM_SL_PERCENT : ℚ := 30

def MIN_PRIMARY_CHECKS : ℕ := 2
def MIN_CONFIDENCE : ℤ := 70

-- ==================== data_manager.py : InMemoryOITracker ====================

/-- One entry of `InMemoryOITracker.history`: the dict built by
`save_snapshot`.  `timestamp` is in whole minutes (the code truncates
`datetime.now(IST)` with `.replace(second=0, microsecond=0)`). -/
structure OISnapshot where
  timestamp : ℤ
  total_ce : ℤ
  total_pe : ℤ
  atm_strike : ℤ
  atm_ce : ℤ
  atm_pe : ℤ
deriving DecidableEq, Repr

/-- `InMemoryOITracker.max_history = 20`. -/
def max_history : ℕ := 20

/-- The snapshot dict built by `save_snapshot` (clock reading `nowSec` in
seconds, truncated to the minute by `.replace(second=0, microsecond=0)`). -/
def mkSnapshot (nowSec total_ce total_pe atm_strike atm_ce atm_pe : ℤ) : OISnapshot :=
  { timestamp := Int.ediv nowSec 60
    total_ce := total_ce, total_pe := total_pe
    atm_strike := atm_strike, atm_ce := atm_ce, atm_pe := atm_pe }

/-- `InMemoryOITracker.save_snapshot`: append the current snapshot and drop
the oldest entry (`history.pop(0)`) once the length exceeds `max_history`. -/
def save_snapshot (history : List OISnapshot) (nowSec : ℤ)
    (total_ce total_pe atm_strike atm_ce atm_pe : ℤ) : List OISnapshot :=
  if max_history < (history ++ [mkSnapshot nowSec total_ce total_pe atm_strike atm_ce atm_pe]).length
  then (history ++ [mkSnapshot nowSec total_ce total_pe atm_strike atm_ce atm_pe]).drop 1
  else history ++ [mkSnapshot nowSec total_ce total_pe atm_strike atm_ce atm_pe]

/-- `|snapshot.timestamp - target|` in whole minutes: in the code
`abs((snapshot['timestamp'] - target_time).total_seconds() / 60)`, exact
because both datetimes are truncated to the minute. -/
def snapDiff (target : ℤ) (s : OISnapshot) : ℤ := |s.timestamp - target|

/-- The update condition of the scan loop in `get_comparison`:
`diff < min_diff and diff <= 3`. -/
def updP (target m : ℤ) (s : OISnapshot) : Prop :=
  snapDiff target s < m ∧ snapDiff target s ≤ 3

instance (target m : ℤ) (s : OISnapshot) : Decidable (updP target m s) := by
  unfold updP; infer_instance

/-- The `for snapshot in self.history` loop of `get_comparison`, carrying
`best_match` and `min_diff`. -/
def bestLoop (target : ℤ) : List OISnapshot → Option OISnapshot → ℤ → Option OISnapshot
  | [], best, _ => best
  | s :: rest, best, m =>
      if updP target m s then bestLoop target rest (some s) (snapDiff target s)
      else bestLoop target rest best m

/-- `best_match` / `min_diff` as initialised (`None`, `999`) and folded over
the history. -/
def best_match (target : ℤ) (history : List OISnapshot) : Option OISnapshot :=
  bestLoop target history none 999

/-- The 5-tuple `(total_ce, total_pe, atm_ce, atm_pe, found)` returned by
`InMemoryOITracker.get_comparison`. -/
structure CompResult where
  total_ce : ℤ
  total_pe : ℤ
  atm_ce : ℤ
  atm_pe : ℤ
  found : Bool
deriving DecidableEq, Repr

/-- `InMemoryOITracker.get_comparison(minutes_ago)`: `nowSec` is the
`datetime.now(IST)` reading in seconds; `target_time = (now -
minutes_ago).replace(second=0, microsecond=0)` is its floor to the minute. -/
def get_comparison (history : List OISnapshot) (nowSec minutes_ago : ℤ) : CompResult :=
  if history.length < 2 then ⟨0, 0, 0, 0, false⟩
  else
    match best_match (Int.ediv (nowSec - 60 * minutes_ago) 60) history with
    | none => ⟨0, 0, 0, 0, false⟩
    | some b => ⟨b.total_ce, b.total_pe, b.atm_ce, b.atm_pe, true⟩

-- ==================== C8 : capacity / FIFO ====================

theorem save_snapshot_len_le (history : List OISnapshot) (nowSec a b c d e : ℤ)
    (h : history.length ≤ max_history) :
    (save_snapshot history nowSec a b c d e).length ≤ max_history := by
  unfold save_snapshot
  split
  · simp only [List.length_drop, List.length_append, List.length_cons, List.length_nil]
    omega
  · rename_i hn
    simp only [List.length_append, List.length_cons, List.length_nil] at hn ⊢
    omega

theorem save_snapshot_at_capacity (history : List OISnapshot) (nowSec a b c d e : ℤ)
    (h : history.length = max_history) :
    save_snapshot history nowSec a b c d e =
      history.tail ++ [mkSnapshot nowSec a b c d e] := by
  unfold save_snapshot
  rw [if_pos (by simp [h])]
  cases history with
  | nil => simp [max_history] at h
  | cons x xs => simp

theorem save_snapshot_below_capacity (history : List OISnapshot) (nowSec a b c d e : ℤ)
    (h : history.length < max_history) :
    save_snapshot history nowSec a b c d e =
      history ++ [mkSnapshot nowSec a b c d e] := by
  unfold save_snapshot
  rw [if_neg]
  simp only [List.length_append, List.length_cons, List.length_nil]
  omega

/-- Claim C8: after every `save_snapshot` the store holds at most
`max_history` (= 20) snapshots; an append at capacity evicts exactly the
oldest entry (FIFO), leaving all other entries unchanged in order, and an
append below capacity evicts nothing. -/
theorem c8_capacity_fifo (history : List OISnapshot) (nowSec a b c d e : ℤ) :
    (history.length ≤ max_history →
      (save_snapshot history nowSec a b c d e).length ≤ max_history) ∧
    (history.length = max_history →
      save_snapshot history nowSec a b c d e =
        history.tail ++ [mkSnapshot nowSec a b c d e]) ∧
    (history.length < max_history →
      save_snapshot history nowSec a b c d e =
        history ++ [mkSnapshot nowSec a b c d e]) :=
  ⟨save_snapshot_len_le history nowSec a b c d e,
   save_snapshot_at_capacity history nowSec a b c d e,
   save_snapshot_below_capacity history nowSec a b c d e⟩

/-- Witness for C8 at a concrete full store (20 entries): the append stays
within capacity and evicts exactly the oldest entry. -/
theorem c8_capacity_fifo_witness :
    (save_snapshot (List.replicate 20 ⟨0, 1, 2, 3, 4, 5⟩) 120 9 9 9 9 9).length ≤ max_history ∧
    save_snapshot (List.replicate 20 ⟨0, 1, 2, 3, 4, 5⟩) 120 9 9 9 9 9 =
      (List.replicate 20 (⟨0, 1, 2, 3, 4, 5⟩ : OISnapshot)).tail ++
        [mkSnapshot 120 9 9 9 9 9] :=
  ⟨(c8_capacity_fifo (List.replicate 20 ⟨0, 1, 2, 3, 4, 5⟩) 120 9 9 9 9 9).1 (by decide),
   (c8_capacity_fifo (List.replicate 20 ⟨0, 1, 2, 3, 4, 5⟩) 120 9 9 9 9 9).2.1 (by decide)⟩

-- ==================== C1 : lookback characterisation ====================

/-- Characterisation of the `get_comparison` scan loop, generalised over the
accumulator: either no element triggers the update condition and the
accumulator is returned, or the list splits around the returned snapshot
`s`, every strictly earlier element either fails the update condition or has
a strictly larger time difference, and no later element has a strictly
smaller one. -/
theorem bestLoop_char (target : ℤ) (l : List OISnapshot) :
    ∀ (b : Option OISnapshot) (m : ℤ),
      ((∀ u ∈ l, ¬ updP target m u) ∧ bestLoop target l b m = b) ∨
      (∃ l₁ s l₂, l = l₁ ++ s :: l₂ ∧ updP target m s ∧
        (∀ u ∈ l₁, ¬ updP target m u ∨ snapDiff target s < snapDiff target u) ∧
        (∀ u ∈ l₂, ¬ snapDiff target u < snapDiff target s) ∧
        bestLoop target l b m = some s) := by
  induction l with
  | nil =>
    intro b m
    exact Or.inl ⟨by simp, rfl⟩
  | cons s rest ih =>
    intro b m
    by_cases h : updP target m s
    · have hred : bestLoop target (s :: rest) b m
          = bestLoop target rest (some s) (snapDiff target s) := by
        simp [bestLoop, h]
      rcases ih (some s) (snapDiff target s) with ⟨hall, heq⟩ |
        ⟨r₁, s', r₂, hsp, hupd, h₁, h₂, heq⟩
      · refine Or.inr ⟨[], s, rest, by simp, h, by simp, ?_, by rw [hred, heq]⟩
        intro u hu hlt
        exact hall u hu ⟨hlt, le_trans (le_of_lt hlt) h.2⟩
      · refine Or.inr ⟨s :: r₁, s', r₂, by rw [hsp]; rfl,
          ⟨lt_trans hupd.1 h.1, hupd.2⟩, ?_, h₂, by rw [hred, heq]⟩
        intro u hu
        rcases List.mem_cons.mp hu with rfl | hu'
        · exact Or.inr hupd.1
        · rcases h₁ u hu' with hnu | hlt
          · by_cases h3 : snapDiff target u ≤ 3
            · refine Or.inr ?_
              have hns : ¬ (snapDiff target u < snapDiff target s) := fun hc => hnu ⟨hc, h3⟩
              exact lt_of_lt_of_le hupd.1 (not_lt.mp hns)
            · exact Or.inl fun hc => h3 hc.2
          · exact Or.inr hlt
    · have hred : bestLoop target (s :: rest) b m = bestLoop target rest b m := by
        simp [bestLoop, h]
      rcases ih b m with ⟨hall, heq⟩ | ⟨r₁, s', r₂, hsp, hupd, h₁, h₂, heq⟩
      · refine Or.inl ⟨?_, by rw [hred, heq]⟩
        intro u hu
        rcases List.mem_cons.mp hu with rfl | hu'
        · exact h
        · exact hall u hu'
      · refine Or.inr ⟨s :: r₁, s', r₂, by rw [hsp]; rfl, hupd, ?_, h₂, by rw [hred, heq]⟩
        intro u hu
        rcases List.mem_cons.mp hu with rfl | hu'
        · exact Or.inl h
        · exact h₁ u hu'

/-- `best_match` (accumulator `None`, `min_diff = 999`): either no snapshot
is within the 3-minute tolerance, or the first snapshot attaining the
minimal time difference among the tolerance-qualifying ones is returned. -/
theorem best_match_char (target : ℤ) (hist : List OISnapshot) :
    (best_match target hist = none ∧ ∀ u ∈ hist, ¬ snapDiff target u ≤ 3) ∨
    (∃ l₁ s l₂, hist = l₁ ++ s :: l₂ ∧ snapDiff target s ≤ 3 ∧
      (∀ u ∈ l₁, snapDiff target s < snapDiff target u) ∧
      (∀ u ∈ l₂, snapDiff target s ≤ snapDiff target u) ∧
      best_match target hist = some s) := by
  rcases bestLoop_char target hist none 999 with ⟨hall, heq⟩ |
    ⟨l₁, s, l₂, hsp, hupd, h₁, h₂, heq⟩
  · exact Or.inl ⟨heq, fun u hu h3 => hall u hu ⟨by omega, h3⟩⟩
  · refine Or.inr ⟨l₁, s, l₂, hsp, hupd.2, ?_, fun u hu => not_lt.mp (h₂ u hu), heq⟩
    intro u hu
    rcases h₁ u hu with hnu | hlt
    · by_cases h3 : snapDiff target u ≤ 3
      · exact absurd ⟨by omega, h3⟩ hnu
      · have h4 := hupd.2
        omega
    · exact hlt

/-- Claim C1 (amended): `get_comparison` returns a found result iff the
store holds at least TWO snapshots and some snapshot lies within the
3-minute tolerance of `now - minutes_ago`; among qualifying snapshots the
returned one has globally minimal absolute time difference, and every
strictly earlier-appended snapshot has a strictly LARGER difference — so an
exact tie is resolved in favour of the EARLIEST-appended (for
timestamp-ordered appends: the older) snapshot, not the more recent one.
When nothing qualifies the not-found tuple is returned, not an error. -/
theorem c1_lookback_amended (history : List OISnapshot) (nowSec minutes_ago : ℤ) :
    ((get_comparison history nowSec minutes_ago).found = true ↔
      2 ≤ history.length ∧
        ∃ u ∈ history, snapDiff (Int.ediv (nowSec - 60 * minutes_ago) 60) u ≤ 3) ∧
    ((get_comparison history nowSec minutes_ago).found = true →
      ∃ l₁ s l₂, history = l₁ ++ s :: l₂ ∧
        snapDiff (Int.ediv (nowSec - 60 * minutes_ago) 60) s ≤ 3 ∧
        (∀ u ∈ history, snapDiff (Int.ediv (nowSec - 60 * minutes_ago) 60) s ≤
          snapDiff (Int.ediv (nowSec - 60 * minutes_ago) 60) u) ∧
        (∀ u ∈ l₁, snapDiff (Int.ediv (nowSec - 60 * minutes_ago) 60) s <
          snapDiff (Int.ediv (nowSec - 60 * minutes_ago) 60) u) ∧
        get_comparison history nowSec minutes_ago =
          ⟨s.total_ce, s.total_pe, s.atm_ce, s.atm_pe, true⟩) := by
  set tgt := Int.ediv (nowSec - 60 * minutes_ago) 60 with htgt
  by_cases hl : history.length < 2
  · have hres : get_comparison history nowSec minutes_ago = ⟨0, 0, 0, 0, false⟩ := by
      unfold get_comparison
      rw [if_pos hl]
    rw [hres]
    constructor
    · simp only [show ¬ (2 ≤ history.length) from by omega]
      simp
    · simp
  · rcases best_match_char tgt history with ⟨hn, hall⟩ | ⟨l₁, s, l₂, hsp, h3, hlt, hle, hsome⟩
    · have hres : get_comparison history nowSec minutes_ago = ⟨0, 0, 0, 0, false⟩ := by
        unfold get_comparison
        rw [if_neg hl, ← htgt, hn]
      rw [hres]
      constructor
      · constructor
        · intro hfalse; simp at hfalse
        · rintro ⟨-, u, hu, hq⟩
          exact absurd hq (hall u hu)
      · simp
    · have hres : get_comparison history nowSec minutes_ago =
          ⟨s.total_ce, s.total_pe, s.atm_ce, s.atm_pe, true⟩ := by
        unfold get_comparison
        rw [if_neg hl, ← htgt, hsome]
      rw [hres]
      have hmemS : s ∈ history := by rw [hsp]; simp
      have hglobal : ∀ u ∈ history, snapDiff tgt s ≤ snapDiff tgt u := by
        intro u hu
        rw [hsp] at hu
        rcases List.mem_append.mp hu with hu1 | hu2
        · exact le_of_lt (hlt u hu1)
        · rcases List.mem_cons.mp hu2 with rfl | hu3
          · exact le_refl _
          · exact hle u hu3
      constructor
      · exact ⟨fun _ => ⟨by omega, s, hmemS, h3⟩, fun _ => rfl⟩
      · exact fun _ => ⟨l₁, s, l₂, hsp, h3, hglobal, hlt, rfl⟩

/-- Claim C1 fails on the code: two snapshots appended in timestamp order
(`timestamp` 9 then 11) tie exactly in absolute difference from the
lookback target (minute 10 = 900 s now, 5 minutes ago), yet
`get_comparison` returns the values of the OLDER snapshot (`total_ce = 1`),
not the more recent one (`total_ce = 2`) the claim requires; moreover a
single stored snapshot with difference 0 yields a not-found result,
refuting the claimed "if and only if". -/
theorem c1_lookback_counterexample :
    snapDiff 10 ⟨9, 1, 1, 1, 1, 1⟩ = snapDiff 10 ⟨11, 2, 2, 2, 2, 2⟩ ∧
    (9 : ℤ) < 11 ∧
    get_comparison [⟨9, 1, 1, 1, 1, 1⟩, ⟨11, 2, 2, 2, 2, 2⟩] 900 5 = ⟨1, 1, 1, 1, true⟩ ∧
    get_comparison [⟨9, 1, 1, 1, 1, 1⟩, ⟨11, 2, 2, 2, 2, 2⟩] 900 5 ≠ ⟨2, 2, 2, 2, true⟩ ∧
    snapDiff 10 ⟨10, 7, 7, 7, 7, 7⟩ = 0 ∧
    get_comparison [⟨10, 7, 7, 7, 7, 7⟩] 900 5 = ⟨0, 0, 0, 0, false⟩ := by
  decide

/-- Witness for C1 (amended) at a concrete two-snapshot store where the
lookback succeeds. -/
theorem c1_lookback_amended_witness :
    ∃ l₁ s l₂, ([⟨9, 1, 1, 1, 1, 1⟩, ⟨11, 2, 2, 2, 2, 2⟩] : List OISnapshot) = l₁ ++ s :: l₂ ∧
      snapDiff (Int.ediv ((900 : ℤ) - 60 * 5) 60) s ≤ 3 ∧
      (∀ u ∈ ([⟨9, 1, 1, 1, 1, 1⟩, ⟨11, 2, 2, 2, 2, 2⟩] : List OISnapshot),
        snapDiff (Int.ediv ((900 : ℤ) - 60 * 5) 60) s ≤ snapDiff (Int.ediv ((900 : ℤ) - 60 * 5) 60) u) ∧
      (∀ u ∈ l₁, snapDiff (Int.ediv ((900 : ℤ) - 60 * 5) 60) s <
        snapDiff (Int.ediv ((900 : ℤ) - 60 * 5) 60) u) ∧
      get_comparison [⟨9, 1, 1, 1, 1, 1⟩, ⟨11, 2, 2, 2, 2, 2⟩] 900 5 =
        ⟨s.total_ce, s.total_pe, s.atm_ce, s.atm_pe, true⟩ :=
  (c1_lookback_amended [⟨9, 1, 1, 1, 1, 1⟩, ⟨11, 2, 2, 2, 2, 2⟩] 900 5).2 (by decide)

-- ==================== OI percentage-change computations (C2) ====================

/-- `utils.calculate_percentage_change`: returns 0 whenever `old_value == 0`,
regardless of `new_value`. -/
def calculate_percentage_change (old_value new_value : ℚ) : ℚ :=
  if old_value = 0 then 0 else (new_value - old_value) / old_value * 100

/-- The inline OI-change arithmetic of `NiftyTradingBot.scan_market`
(main.py, 5m/15m/30m, total and ATM alike):
`((curr - prev) / prev * 100) if prev > 0 else 0.0`. -/
def scan_oi_change (prev curr : ℚ) : ℚ :=
  if 0 < prev then (curr - prev) / prev * 100 else 0

/-- Python 3 `round` to an integer: round half to even (banker's rounding). -/
def roundHalfEven (x : ℚ) : ℤ :=
  if x - ⌊x⌋ < 1/2 then ⌊x⌋
  else if 1/2 < x - ⌊x⌋ then ⌊x⌋ + 1
  else if ⌊x⌋ % 2 = 0 then ⌊x⌋ else ⌊x⌋ + 1

/-- Python `round(x, 1)`. -/
def pyRound1 (x : ℚ) : ℚ := (roundHalfEven (x * 10) : ℚ) / 10

/-- The per-side percentage-change arithmetic of
`RedisBrain.get_total_oi_change` and `RedisBrain.get_strike_oi_change`
(data_manager.py): `100.0 if current > 0 else 0.0` when the past value is 0,
otherwise the usual relative change. -/
def redis_oi_change (past curr : ℚ) : ℚ :=
  if past = 0 then (if 0 < curr then 100 else 0)
  else (curr - past) / past * 100

/-- The pair `(ce_chg, pe_chg)` computed by `RedisBrain.get_total_oi_change`
once a past value has been found: each side's change, rounded to one
decimal. -/
def get_total_oi_change (past_ce past_pe current_ce current_pe : ℚ) : ℚ × ℚ :=
  (pyRound1 (redis_oi_change past_ce current_ce),
   pyRound1 (redis_oi_change past_pe current_pe))

/-- Claim C2 fails on the code: in the scan-cycle computation actually used
each cycle (main.py) and in `utils.calculate_percentage_change`, a past
value of 0 with current value 5 > 0 yields 0, not the claimed +100. -/
theorem c2_zero_past_counterexample :
    scan_oi_change 0 5 = 0 ∧ scan_oi_change 0 5 ≠ 100 ∧
    calculate_percentage_change 0 5 = 0 ∧ calculate_percentage_change 0 5 ≠ 100 ∧
    (0 : ℚ) = 0 ∧ (5 : ℚ) > 0 := by
  refine ⟨by norm_num [scan_oi_change], by norm_num [scan_oi_change],
    by norm_num [calculate_percentage_change], by norm_num [calculate_percentage_change],
    rfl, by norm_num⟩

/-- Claim C2 (amended): the `past == 0 → +100 if current > 0 else 0` policy
holds exactly in the RedisBrain computations (`get_total_oi_change` and the
identical strike-scoped arithmetic); the scan-cycle computations in
`main.py` and `utils.calculate_percentage_change` instead return 0 whenever
the past value is 0, regardless of the current value. -/
theorem c2_zero_past_amended (curr : ℚ) :
    (0 < curr → redis_oi_change 0 curr = 100 ∧
      get_total_oi_change 0 0 curr curr = (100, 100)) ∧
    (redis_oi_change 0 0 = 0 ∧ get_total_oi_change 0 0 0 0 = (0, 0)) ∧
    scan_oi_change 0 curr = 0 ∧
    calculate_percentage_change 0 curr = 0 := by
  refine ⟨?_, ⟨?_, ?_⟩, ?_, ?_⟩
  · intro h
    have h100 : redis_oi_change 0 curr = 100 := by
      simp [redis_oi_change, h]
    refine ⟨h100, ?_⟩
    simp only [get_total_oi_change, h100]
    norm_num [pyRound1, roundHalfEven]
  · simp [redis_oi_change]
  · simp only [get_total_oi_change]
    norm_num [redis_oi_change, pyRound1, roundHalfEven]
  · simp [scan_oi_change]
  · simp [calculate_percentage_change]

/-- Witness for C2 (amended) at `current = 5`. -/
theorem c2_zero_past_amended_witness :
    (redis_oi_change 0 5 = 100 ∧ get_total_oi_change 0 0 5 5 = (100, 100)) ∧
    (redis_oi_change 0 0 = 0 ∧ get_total_oi_change 0 0 0 0 = (0, 0)) ∧
    scan_oi_change 0 5 = 0 ∧
    calculate_percentage_change 0 5 = 0 :=
  ⟨(c2_zero_past_amended 5).1 (by norm_num),
   (c2_zero_past_amended 5).2.1, (c2_zero_past_amended 5).2.2.1,
   (c2_zero_past_amended 5).2.2.2⟩

-- ==================== analyzers.py : OI velocity classifier (C5) ====================

/-- The pattern strings returned by `OIAnalyzer.classify_oi_velocity`. -/
inductive VelocityPattern
  | ACCELERATION | DECELERATION | MONSTER_LOADING | EXHAUSTION | NORMAL | UNKNOWN
deriving DecidableEq, Repr

/-- The strength tags `'none' | 'weak' | 'medium' | 'strong'`. -/
inductive VelStrength
  | vsNone | vsWeak | vsMedium | vsStrong
deriving DecidableEq, Repr

/-- The `option_type` argument (`'CE'` or `'PE'`); it only enters the
human-readable description strings, which are not modelled. -/
inductive OptionSide
  | CE | PE
deriving DecidableEq, Repr

/-- The `(pattern, strength, confidence_modifier)` triple returned by
`classify_oi_velocity` (the description string is omitted). -/
structure VelocityResult where
  pattern : VelocityPattern
  strength : VelStrength
  conf : ℤ
deriving DecidableEq, Repr

/-- `OIAnalyzer.classify_oi_velocity`: ordered threshold comparisons on the
absolute 5m/15m/30m change magnitudes.  NOTE the source order — matching its
own docstring — is Acceleration, then Deceleration, then Monster Loading,
then Exhaustion. -/
def classify_oi_velocity (oi_5m oi_15m oi_30m : ℚ) (has_30m : Bool)
    (side : OptionSide) : VelocityResult :=
  if has_30m = false then ⟨.UNKNOWN, .vsNone, 0⟩
  else
    if |oi_15m| > |oi_30m| ∧ |oi_15m| > VELOCITY_ACCELERATION_MIN then
      if |oi_15m| > VELOCITY_ACCELERATION_STRONG then ⟨.ACCELERATION, .vsStrong, 15⟩
      else ⟨.ACCELERATION, .vsMedium, 10⟩
    else if |oi_30m| > |oi_15m| ∧ |oi_30m| > VELOCITY_DECELERATION_MIN then
      ⟨.DECELERATION, .vsWeak, -10⟩
    else if |oi_15m| > VELOCITY_MONSTER_15M ∧ |oi_30m| > VELOCITY_MONSTER_30M then
      ⟨.MONSTER_LOADING, .vsStrong, 20⟩
    else if |oi_30m| > VELOCITY_EXHAUSTION_30M ∧ |oi_15m| < VELOCITY_EXHAUSTION_15M then
      ⟨.EXHAUSTION, .vsWeak, -15⟩
    else ⟨.NORMAL, .vsNone, 0⟩

/-- Claim C5 fails on the code: with 30m data available and both magnitudes
above the Monster floor (15m = 10 > 8, 30m = 9 > 8), the Acceleration branch
— which the code checks FIRST, before Monster Loading — fires (15m > 30m),
so the classification is ACCELERATION, not MONSTER_LOADING, on both sides. -/
theorem c5_monster_counterexample :
    VELOCITY_MONSTER_15M < |(10 : ℚ)| ∧ VELOCITY_MONSTER_30M < |(9 : ℚ)| ∧
    classify_oi_velocity 0 10 9 true .CE = ⟨.ACCELERATION, .vsStrong, 15⟩ ∧
    (classify_oi_velocity 0 10 9 true .CE).pattern ≠ .MONSTER_LOADING ∧
    (classify_oi_velocity 0 10 9 true .PE).pattern ≠ .MONSTER_LOADING := by
  have h10 : |(10 : ℚ)| = 10 := abs_of_pos (by norm_num)
  have h9 : |(9 : ℚ)| = 9 := abs_of_pos (by norm_num)
  refine ⟨?_, ?_, ?_, ?_, ?_⟩ <;>
    norm_num [classify_oi_velocity, h10, h9, VELOCITY_MONSTER_15M, VELOCITY_MONSTER_30M,
      VELOCITY_ACCELERATION_MIN, VELOCITY_ACCELERATION_STRONG] <;> decide

/-- Claim C5 (amended): with 30m data available, `classify_oi_velocity`
returns MONSTER_LOADING exactly when both magnitudes exceed the Monster
floor AND the 15m and 30m magnitudes are exactly equal — because the code
checks Acceleration (15m > 30m) and Deceleration (30m > 15m) first, and the
Monster floors (8) are above those branches' floors (5), any strict
difference between the magnitudes is classified as Acceleration or
Deceleration instead.  This holds identically for the CE and PE sides. -/
theorem c5_monster_amended (side : OptionSide) (oi_5m oi_15m oi_30m : ℚ) :
    (classify_oi_velocity oi_5m oi_15m oi_30m true side).pattern
        = VelocityPattern.MONSTER_LOADING ↔
      (VELOCITY_MONSTER_15M < |oi_15m| ∧ VELOCITY_MONSTER_30M < |oi_30m| ∧
        |oi_15m| = |oi_30m|) := by
  unfold classify_oi_velocity
  rw [if_neg (by decide : ¬ (true = false))]
  simp only [VELOCITY_ACCELERATION_MIN, VELOCITY_ACCELERATION_STRONG,
    VELOCITY_DECELERATION_MIN, VELOCITY_MONSTER_15M, VELOCITY_MONSTER_30M,
    VELOCITY_EXHAUSTION_30M, VELOCITY_EXHAUSTION_15M, gt_iff_lt]
  split_ifs with h1 h2 h3 h4 h5
  · refine iff_of_false (by simp) ?_
    rintro ⟨hA, hB, hEq⟩
    have := h1.1
    linarith [hEq.le, hEq.ge]
  · refine iff_of_false (by simp) ?_
    rintro ⟨hA, hB, hEq⟩
    have := h1.1
    linarith [hEq.le, hEq.ge]
  · refine iff_of_false (by simp) ?_
    rintro ⟨hA, hB, hEq⟩
    have := h3.1
    linarith [hEq.le, hEq.ge]
  · refine iff_of_true rfl ?_
    have hAB : |oi_15m| ≤ |oi_30m| := by
      by_contra hch
      push_neg at hch
      exact h1 ⟨hch, by linarith [h4.1]⟩
    have hBA : |oi_30m| ≤ |oi_15m| := by
      by_contra hch
      push_neg at hch
      exact h3 ⟨hch, by linarith [h4.2]⟩
    exact ⟨h4.1, h4.2, le_antisymm hAB hBA⟩
  · refine iff_of_false (by simp) ?_
    rintro ⟨hA, hB, hEq⟩
    linarith [h5.2]
  · refine iff_of_false (by simp) ?_
    rintro ⟨hA, hB, hEq⟩
    exact h4 ⟨hA, hB⟩

/-- Witness for C5 (amended): equal 15m/30m magnitudes above the floor do
classify as MONSTER_LOADING, on both sides. -/
theorem c5_monster_amended_witness :
    (classify_oi_velocity 0 9 9 true .CE).pattern = VelocityPattern.MONSTER_LOADING ∧
    (classify_oi_velocity 0 9 9 true .PE).pattern = VelocityPattern.MONSTER_LOADING :=
  ⟨(c5_monster_amended .CE 0 9 9).mpr
      ⟨by rw [abs_of_pos (by norm_num : (0:ℚ) < 9)]; norm_num [VELOCITY_MONSTER_15M],
       by rw [abs_of_pos (by norm_num : (0:ℚ) < 9)]; norm_num [VELOCITY_MONSTER_30M],
       rfl⟩,
   (c5_monster_amended .PE 0 9 9).mpr
      ⟨by rw [abs_of_pos (by norm_num : (0:ℚ) < 9)]; norm_num [VELOCITY_MONSTER_15M],
       by rw [abs_of_pos (by norm_num : (0:ℚ) < 9)]; norm_num [VELOCITY_MONSTER_30M],
       rfl⟩⟩

-- ==================== analyzers.py : price-aware OI scenario classifier ====================

/-- `result['ce_scenario']` values. -/
inductive CEScen
  | LONG_BUILDUP | SHORT_COVERING | LONG_UNWINDING
deriving DecidableEq, Repr

/-- `result['pe_scenario']` values. -/
inductive PEScen
  | SHORT_BUILDUP | SHORT_COVERING | LONG_UNWINDING
deriving DecidableEq, Repr

/-- `result['ce_signal']` / `result['pe_signal']` values. -/
inductive SideSignal
  | NEUTRAL | STRONG_BULLISH | WEAK_BULLISH | STRONG_BEARISH | WEAK_BEARISH
deriving DecidableEq, Repr

/-- `result['primary_direction']` values. -/
inductive PrimaryDir
  | NEUTRAL | STRONG_BULLISH | STRONG_BEARISH | BULLISH | BEARISH
deriving DecidableEq, Repr

/-- `result['human_name']` values. -/
inductive HumanName
  | NO_PATTERN | SUPPORT_BOUNCE | WEAK_BOUNCE | PROFIT_BOOKING
  | RESISTANCE_REJECT | WEAK_DROP | BEAR_PROFIT_BOOKING
deriving DecidableEq, Repr

/-- The result dict of `OIAnalyzer.analyze_oi_with_price` (the `details`
sub-dicts, which only repeat the inputs alongside fixed commentary strings,
are not modelled). -/
structure OIScen where
  ce_scen : Option CEScen
  pe_scen : Option PEScen
  ce_signal : SideSignal
  pe_signal : SideSignal
  ce_strength : VelStrength
  pe_strength : VelStrength
  primary_direction : PrimaryDir
  confidence_boost : ℤ
  human_name : HumanName
deriving DecidableEq, Repr

/-- `OIAnalyzer.analyze_oi_with_price`.  Local thresholds of the source:
`OI_BUILDUP_THRESHOLD = 3.0`, `OI_UNWINDING_THRESHOLD = -5.0`,
`STRONG_BUILDUP = 7.0`, `STRONG_UNWINDING = -8.0`, `PRICE_UP = 0.05`,
`PRICE_DOWN = -0.05`; `OI_BUILDUP_THRESHOLD * 1.5 = 4.5`. -/
def analyze_oi_with_price (ce_5m ce_15m pe_5m pe_15m price_change_pct : ℚ) : OIScen :=
  let r0 : OIScen :=
    ⟨none, none, .NEUTRAL, .NEUTRAL, .vsNone, .vsNone, .NEUTRAL, 0, .NO_PATTERN⟩
  let r1 : OIScen :=
    if ce_5m > 3 ∧ ce_15m > 3 ∧ price_change_pct > 1/20 then
      { r0 with
        ce_scen := some .LONG_BUILDUP, ce_signal := .STRONG_BULLISH,
        ce_strength :=
          if ce_15m > 7 ∧ ce_5m > 7 then .vsStrong
          else if ce_15m > 9/2 then .vsMedium else .vsWeak,
        confidence_boost :=
          (if ce_15m > 7 ∧ ce_5m > 7 then (95 : ℤ)
           else if ce_15m > 9/2 then 85 else 75) - 70,
        human_name := .SUPPORT_BOUNCE }
    else if ce_5m < -5 ∧ ce_15m < -5 ∧ price_change_pct > 1/20 then
      { r0 with
        ce_scen := some .SHORT_COVERING, ce_signal := .WEAK_BULLISH,
        ce_strength := if ce_15m < -8 then .vsMedium else .vsWeak,
        confidence_boost := -10,
        human_name := .WEAK_BOUNCE }
    else if ce_5m < -5 ∧ ce_15m < -5 ∧ price_change_pct < -(1/20) then
      { r0 with
        ce_scen := some .LONG_UNWINDING, ce_signal := .WEAK_BEARISH,
        ce_strength := if ce_15m < -8 then .vsMedium else .vsWeak,
        human_name := .PROFIT_BOOKING }
    else r0
  let r2 : OIScen :=
    if pe_5m > 3 ∧ pe_15m > 3 ∧ price_change_pct < -(1/20) then
      { r1 with
        pe_scen := some .SHORT_BUILDUP, pe_signal := .STRONG_BEARISH,
        pe_strength :=
          if pe_15m > 7 ∧ pe_5m > 7 then .vsStrong
          else if pe_15m > 9/2 then .vsMedium else .vsWeak,
        confidence_boost :=
          max r1.confidence_boost
            ((if pe_15m > 7 ∧ pe_5m > 7 then (95 : ℤ)
              else if pe_15m > 9/2 then 85 else 75) - 70),
        human_name := .RESISTANCE_REJECT }
    else if pe_5m < -5 ∧ pe_15m < -5 ∧ price_change_pct < -(1/20) then
      { r1 with
        pe_scen := some .SHORT_COVERING, pe_signal := .WEAK_BEARISH,
        pe_strength := if pe_15m < -8 then .vsMedium else .vsWeak,
        confidence_boost := min r1.confidence_boost (-10),
        human_name := .WEAK_DROP }
    else if pe_5m < -5 ∧ pe_15m < -5 ∧ price_change_pct > 1/20 then
      { r1 with
        pe_scen := some .LONG_UNWINDING, pe_signal := .WEAK_BULLISH,
        pe_strength := if pe_15m < -8 then .vsMedium else .vsWeak,
        human_name := .BEAR_PROFIT_BOOKING }
    else r1
  let ce_bull := r2.ce_signal = .STRONG_BULLISH ∨ r2.ce_signal = .WEAK_BULLISH
  let pe_bull := r2.pe_signal = .STRONG_BULLISH ∨ r2.pe_signal = .WEAK_BULLISH
  let ce_bear := r2.ce_signal = .STRONG_BEARISH ∨ r2.ce_signal = .WEAK_BEARISH
  let pe_bear := r2.pe_signal = .STRONG_BEARISH ∨ r2.pe_signal = .WEAK_BEARISH
  if ce_bull ∧ pe_bull then
    { r2 with
      primary_direction := .STRONG_BULLISH,
      confidence_boost := r2.confidence_boost + 15 }
  else if ce_bear ∧ pe_bear then
    { r2 with
      primary_direction := .STRONG_BEARISH,
      confidence_boost := r2.confidence_boost + 15 }
  else if r2.ce_signal = .STRONG_BULLISH ∨ r2.pe_signal = .STRONG_BULLISH then
    { r2 with primary_direction := .BULLISH }
  else if r2.ce_signal = .STRONG_BEARISH ∨ r2.pe_signal = .STRONG_BEARISH then
    { r2 with primary_direction := .BEARISH }
  else
    { r2 with primary_direction := .NEUTRAL }

-- ==================== analyzers.py : volume / VWAP / OTM helpers ====================

/-- `VolumeAnalyzer.detect_volume_spike` — disabled in the source: it
unconditionally returns `(False, 1.0)`. -/
def detect_volume_spike (current avg : ℚ) : Bool × ℚ := (false, 1)

/-- Signal direction (`SignalType` enum of signal_engine.py). -/
inductive SignalType
  | CE_BUY | PE_BUY
deriving DecidableEq, Repr

/-- `TechnicalAnalyzer.validate_signal_with_vwap`: the `(valid, score)`
pair (the reason string is omitted).  The Python falsy test
`if not vwap or not spot or not atr` is the zero test on these floats;
`VWAP_STRICT_MODE` is `True`, so `buffer = atr * 3.0`. -/
def validate_signal_with_vwap (signal_type : SignalType) (spot vwap atr : ℚ) : Bool × ℤ :=
  if vwap = 0 ∨ spot = 0 ∨ atr = 0 then (false, 0)
  else
    let distance := spot - vwap
    let buffer := if VWAP_STRICT_MODE then atr * VWAP_DISTANCE_MAX_ATR_MULTIPLE else VWAP_BUFFER
    match signal_type with
    | .CE_BUY =>
      if distance < -buffer then (false, 0)
      else if distance > buffer * 3 then (false, 0)
      else if distance > 0 then (true, truncQ (min 100 (80 + distance / buffer * 20)))
      else (true, truncQ (max 60 (80 - |distance| / buffer * 20)))
    | .PE_BUY =>
      if distance > 0 then (false, 0)
      else if distance > buffer then (false, 0)
      else if distance < -buffer * 3 then (false, 0)
      else if distance < 0 then (true, truncQ (min 100 (80 + |distance| / buffer * 20)))
      else (true, truncQ (max 60 (80 - distance / buffer * 20)))

/-- The per-strike OI fields consumed by `analyze_otm_levels`. -/
structure StrikeOI where
  ce_oi : ℤ
  pe_oi : ℤ
deriving DecidableEq, Repr

/-- `OIAnalyzer.analyze_otm_levels`: `(has_support, has_resistance,
confidence_modifier)` (the details string is omitted).  `strike_data.get`
with a missing strike defaults to zero OI. -/
def analyze_otm_levels (strikes : List (ℤ × StrikeOI)) (atm_strike : ℤ)
    (signal_type : SignalType) : Bool × Bool × ℤ :=
  let above := (strikes.lookup (atm_strike + OTM_RESISTANCE_OFFSET)).getD ⟨0, 0⟩
  let below := (strikes.lookup (atm_strike - OTM_SUPPORT_OFFSET)).getD ⟨0, 0⟩
  match signal_type with
  | .CE_BUY =>
    let sup : Bool := decide (below.pe_oi > OTM_HIGH_OI_THRESHOLD)
    let res : Bool := decide (above.ce_oi > OTM_HIGH_OI_THRESHOLD)
    (sup, res, (cond sup (10 : ℤ) 0) + (cond res (-10) 0))
  | .PE_BUY =>
    let res : Bool := decide (above.ce_oi > OTM_HIGH_OI_THRESHOLD)
    let sup : Bool := decide (below.pe_oi > OTM_HIGH_OI_THRESHOLD)
    (sup, res, (cond res (10 : ℤ) 0) + (cond sup (-10) 0))

-- ==================== signal_engine.py : helpers ====================

/-- `get_pcr_bias` bias strings. -/
inductive PCRBias
  | OVERHEATED | BULLISH | NEUTRAL | BEARISH | OVERSOLD
deriving DecidableEq, Repr

/-- `get_pcr_bias`: `(bias, confidence adjustment)` (description omitted). -/
def get_pcr_bias (pcr : ℚ) : PCRBias × ℤ :=
  if pcr < PCR_OVERHEATED then (.OVERHEATED, -10)
  else if pcr < PCR_BALANCED_BULL then (.BULLISH, 5)
  else if pcr < PCR_NEUTRAL_HIGH then (.NEUTRAL, 0)
  else if pcr < PCR_BALANCED_BEAR then (.BEARISH, 5)
  else (.OVERSOLD, -10)

/-- `detect_reversal` (reason string omitted): local
`REVERSAL_THRESHOLD = 5.0`. -/
def detect_reversal (atm_ce_15m atm_pe_15m : ℚ) (has_data : Bool) : Bool :=
  if has_data = false then false
  else if |atm_ce_15m| > 5 ∧ |atm_pe_15m| > 5 then
    (if atm_ce_15m < 0 ∧ atm_pe_15m < 0 then true else false)
  else false

/-- `detect_trap` (reason string omitted): local `TRAP_SPIKE = 8.0`,
`TRAP_FLAT = 2.0`. -/
def detect_trap (ce_15m pe_15m : ℚ) (has_data : Bool) : Bool :=
  if has_data = false then false
  else if |ce_15m| > 8 ∧ |pe_15m| < 2 then true
  else if |pe_15m| > 8 ∧ |ce_15m| < 2 then true
  else false

/-- `check_market_timing`: suitable iff before the 15:00 buffer
(`nowMin` = minutes since midnight IST). -/
def check_market_timing (nowMin : ℚ) : Bool := decide (nowMin < 900)

-- ==================== signal_engine.py : SignalGenerator ====================

/-- The `oi_strength` kwarg computed in `scan_market`
(`'weak' | 'medium' | 'strong'`). -/
inductive OIStrength
  | weak | medium | strong
deriving DecidableEq, Repr

/-- Python substring test `'BULLISH' in primary_direction` on the possible
`primary_direction` strings (`'STRONG_BULLISH'` and `'BULLISH'` contain it). -/
def pdirHasBULLISH : PrimaryDir → Bool
  | .STRONG_BULLISH => true
  | .BULLISH => true
  | _ => false

/-- Python substring test `'BEARISH' in primary_direction`. -/
def pdirHasBEARISH : PrimaryDir → Bool
  | .STRONG_BEARISH => true
  | .BEARISH => true
  | _ => false

/-- Python substring test `'BULLISH' in ce_signal` on the possible
side-signal strings. -/
def sigHasBULLISH : SideSignal → Bool
  | .STRONG_BULLISH => true
  | .WEAK_BULLISH => true
  | _ => false

/-- Python substring test `'BEARISH' in pe_signal`. -/
def sigHasBEARISH : SideSignal → Bool
  | .STRONG_BEARISH => true
  | .WEAK_BEARISH => true
  | _ => false

/-- Python substring test `'STRONG' in ce_signal` / `'STRONG' in pe_signal`. -/
def sigHasSTRONG : SideSignal → Bool
  | .STRONG_BULLISH => true
  | .STRONG_BEARISH => true
  | _ => false

/-- `_check_ce_buy`'s OI-scenario boost: `(oi_scenario_boost,
oi_scenario_type)` where the tag models the `f"{human_name} (STRONG)"` /
`f"{human_name} (WEAK)"` string as the name paired with the STRONG flag. -/
def ce_scen_boost : Option OIScen → ℤ × Option (HumanName × Bool)
  | none => (0, none)
  | some sc =>
    if pdirHasBULLISH sc.primary_direction || sigHasBULLISH sc.ce_signal then
      if sigHasSTRONG sc.ce_signal then (15, some (sc.human_name, true))
      else (5, some (sc.human_name, false))
    else (0, none)

/-- `_check_pe_buy`'s OI-scenario boost. -/
def pe_scen_boost : Option OIScen → ℤ × Option (HumanName × Bool)
  | none => (0, none)
  | some sc =>
    if pdirHasBEARISH sc.primary_direction || sigHasBEARISH sc.pe_signal then
      if sigHasSTRONG sc.pe_signal then (15, some (sc.human_name, true))
      else (5, some (sc.human_name, false))
    else (0, none)

/-- The keyword arguments `scan_market` passes to `SignalGenerator.generate`
(`volume_ratio` is embedded as `vol_rate`; `candle_data` and `momentum`
contribute only `candle_data.get('size', 0)` and the
`consecutive_green`/`consecutive_red` counts; `atm_data` contributes only
the `ce_ltp`/`pe_ltp` premiums, `None` when the key is absent). -/
structure GenInput where
  spot_price : ℚ
  futures_price : ℚ
  vwap : ℚ
  vwap_distance : ℚ
  pcr : ℚ
  atr : ℚ
  atm_strike : ℤ
  atm_ce_ltp : Option ℚ
  atm_pe_ltp : Option ℚ
  strikes : List (ℤ × StrikeOI)
  ce_total_5m : ℚ
  pe_total_5m : ℚ
  ce_total_15m : ℚ
  pe_total_15m : ℚ
  ce_total_30m : ℚ
  pe_total_30m : ℚ
  atm_ce_5m : ℚ
  atm_pe_5m : ℚ
  atm_ce_15m : ℚ
  atm_pe_15m : ℚ
  has_5m_total : Bool
  has_15m_total : Bool
  has_30m_total : Bool
  has_5m_atm : Bool
  has_15m_atm : Bool
  volume_spike : Bool
  vol_rate : ℚ
  order_flow : ℚ
  candle_size : ℚ
  gamma_zone : Bool
  consec_green : ℤ
  consec_red : ℤ
  multi_tf : Bool
  oi_strength : OIStrength
  oi_scen : Option OIScen

/-- The `Signal` dataclass (display-string fields are embedded as their
enumerated content: `pcr_bias` as the bias tag, `oi_velocity_pattern` as the
pattern/strength pair, `oi_scenario_type` as name × STRONG flag;
`otm_analysis`, a pure description string, is omitted). -/
structure Signal where
  signal_type : SignalType
  timestamp : ℚ
  entry_price : ℚ
  target_price : ℚ
  stop_loss : ℚ
  atm_strike : ℤ
  recommended_strike : ℤ
  option_premium : ℚ
  premium_sl : ℚ
  vwap : ℚ
  vwap_distance : ℚ
  vwap_score : ℤ
  atr : ℚ
  oi_5m : ℚ
  oi_15m : ℚ
  oi_30m : ℚ
  oi_strength : OIStrength
  atm_ce_change : ℚ
  atm_pe_change : ℚ
  pcr : ℚ
  pcr_bias : PCRBias
  volume_spike : Bool
  vol_rate : ℚ
  order_flow : ℚ
  confidence : ℤ
  primary_checks : ℕ
  bonus_checks : ℕ
  oi_scen_tag : Option (HumanName × Bool)
  velocity_pattern : VelocityPattern
  velocity_strength : VelStrength
  is_expiry_day : Bool

/-- `primary_ce` of `_check_ce_buy`: multi-timeframe total-OI unwinding. -/
def primary_ce_check (inp : GenInput) : Bool :=
  decide (inp.ce_total_15m < -MIN_OI_15M_FOR_ENTRY) &&
  decide (inp.ce_total_5m < -MIN_OI_5M_FOR_ENTRY) &&
  inp.has_15m_total && inp.has_5m_total

/-- `primary_atm` of `_check_ce_buy`. -/
def primary_atm_ce_check (inp : GenInput) : Bool :=
  decide (inp.atm_ce_15m < -ATM_OI_THRESHOLD) && inp.has_15m_atm

/-- `primary_30m_confirm` of `_check_ce_buy`. -/
def primary_30m_ce_check (inp : GenInput) : Bool :=
  inp.has_30m_total && decide (inp.ce_total_30m < -MIN_OI_30M_FOR_ENTRY)

/-- `primary_pe` of `_check_pe_buy`. -/
def primary_pe_check (inp : GenInput) : Bool :=
  decide (inp.pe_total_15m < -MIN_OI_15M_FOR_ENTRY) &&
  decide (inp.pe_total_5m < -MIN_OI_5M_FOR_ENTRY) &&
  inp.has_15m_total && inp.has_5m_total

/-- `primary_atm` of `_check_pe_buy`. -/
def primary_atm_pe_check (inp : GenInput) : Bool :=
  decide (inp.atm_pe_15m < -ATM_OI_THRESHOLD) && inp.has_15m_atm

/-- `primary_30m_confirm` of `_check_pe_buy`. -/
def primary_30m_pe_check (inp : GenInput) : Bool :=
  inp.has_30m_total && decide (inp.pe_total_30m < -MIN_OI_30M_FOR_ENTRY)

/-- `bonus_passed` of `_check_ce_buy` (`sum` of the ten bonus booleans). -/
def bonus_ce_count (inp : GenInput) : ℕ :=
  (cond (decide (inp.ce_total_5m < -STRONG_OI_5M_THRESHOLD) && inp.has_5m_total) 1 0) +
  (cond (decide (inp.candle_size ≥ MIN_CANDLE_SIZE)) 1 0) +
  (cond (decide (inp.vwap_distance > 0)) 1 0) +
  (cond (decide (inp.pcr > PCR_BULLISH)) 1 0) +
  (cond (decide (inp.consec_green ≥ 2)) 1 0) +
  (cond (decide (inp.order_flow < 1)) 1 0) +
  (cond inp.multi_tf 1 0) +
  (cond inp.gamma_zone 1 0) +
  (cond (decide (inp.vol_rate ≥ VOL_SPIKE_STRONG)) 1 0) +
  (cond (primary_30m_ce_check inp) 1 0)

/-- `bonus_passed` of `_check_pe_buy`. -/
def bonus_pe_count (inp : GenInput) : ℕ :=
  (cond (decide (inp.pe_total_5m < -STRONG_OI_5M_THRESHOLD) && inp.has_5m_total) 1 0) +
  (cond (decide (inp.candle_size ≥ MIN_CANDLE_SIZE)) 1 0) +
  (cond (decide (inp.vwap_distance < 0)) 1 0) +
  (cond (decide (inp.pcr < PCR_BEARISH)) 1 0) +
  (cond (decide (inp.consec_red ≥ 2)) 1 0) +
  (cond (decide (inp.order_flow > 1)) 1 0) +
  (cond inp.multi_tf 1 0) +
  (cond inp.gamma_zone 1 0) +
  (cond (decide (inp.vol_rate ≥ VOL_SPIKE_STRONG)) 1 0) +
  (cond (primary_30m_pe_check inp) 1 0)

/-- `SignalGenerator._check_ce_buy` (`now` is the wall-clock reading used
for the Signal timestamp, in minutes). -/
def check_ce_buy (inp : GenInput) (now : ℚ) : Option Signal :=
  let v := validate_signal_with_vwap .CE_BUY inp.futures_price inp.vwap inp.atr
  if inp.futures_price ≤ inp.vwap then none
  else if v.2 < MIN_VWAP_SCORE then none
  else if v.1 = false then none
  else
    let pb := get_pcr_bias inp.pcr
    let vel := classify_oi_velocity inp.ce_total_5m inp.ce_total_15m inp.ce_total_30m
      inp.has_30m_total .CE
    if vel.pattern = .DECELERATION ∨ vel.pattern = .EXHAUSTION then none
    else
      let otm := analyze_otm_levels inp.strikes inp.atm_strike .CE_BUY
      let scb := ce_scen_boost inp.oi_scen
      let primary_passed : ℕ :=
        (cond (primary_ce_check inp) 1 0) + (cond (primary_atm_ce_check inp) 1 0) +
        (cond inp.volume_spike 1 0)
      if primary_passed < MIN_PRIMARY_CHECKS then none
      else
        let confidence : ℤ :=
          min (40
            + (cond (primary_ce_check inp) (if inp.oi_strength = .strong then 25 else 20) 0)
            + (cond (primary_atm_ce_check inp) 20 0)
            + (cond inp.volume_spike 15 0)
            + truncQ ((v.2 : ℚ) / 5)
            + vel.conf + otm.2.2 + scb.1 + pb.2
            + min ((bonus_ce_count inp : ℤ) * 2) 15) 98
        if confidence < MIN_CONFIDENCE then none
        else
          some { signal_type := .CE_BUY, timestamp := now,
                 entry_price := inp.futures_price,
                 target_price := inp.futures_price + (truncQ (inp.atr * ATR_TARGET_MULTIPLIER) : ℚ),
                 stop_loss := inp.futures_price -
                   (truncQ (inp.atr * (if inp.gamma_zone then ATR_SL_GAMMA_MULTIPLIER
                                       else ATR_SL_MULTIPLIER)) : ℚ),
                 atm_strike := inp.atm_strike, recommended_strike := inp.atm_strike,
                 option_premium := inp.atm_ce_ltp.getD 150,
                 premium_sl := if USE_PREMIUM_SL then
                     (inp.atm_ce_ltp.getD 150) * (1 - PREMIUM_SL_PERCENT / 100) else 0,
                 vwap := inp.vwap, vwap_distance := inp.vwap_distance, vwap_score := v.2,
                 atr := inp.atr,
                 oi_5m := inp.ce_total_5m, oi_15m := inp.ce_total_15m, oi_30m := inp.ce_total_30m,
                 oi_strength := inp.oi_strength,
                 atm_ce_change := inp.atm_ce_15m, atm_pe_change := inp.atm_pe_15m,
                 pcr := inp.pcr, pcr_bias := pb.1,
                 volume_spike := inp.volume_spike, vol_rate := inp.vol_rate,
                 order_flow := inp.order_flow,
                 confidence := confidence,
                 primary_checks := primary_passed, bonus_checks := bonus_ce_count inp,
                 oi_scen_tag := scb.2,
                 velocity_pattern := vel.pattern, velocity_strength := vel.strength,
                 is_expiry_day := inp.gamma_zone }

/-- `SignalGenerator._check_pe_buy`. -/
def check_pe_buy (inp : GenInput) (now : ℚ) : Option Signal :=
  let v := validate_signal_with_vwap .PE_BUY inp.futures_price inp.vwap inp.atr
  if inp.vwap ≤ inp.futures_price then none
  else if v.2 < MIN_VWAP_SCORE then none
  else if v.1 = false then none
  else
    let pb := get_pcr_bias inp.pcr
    let vel := classify_oi_velocity inp.pe_total_5m inp.pe_total_15m inp.pe_total_30m
      inp.has_30m_total .PE
    if vel.pattern = .DECELERATION ∨ vel.pattern = .EXHAUSTION then none
    else
      let otm := analyze_otm_levels inp.strikes inp.atm_strike .PE_BUY
      let scb := pe_scen_boost inp.oi_scen
      let primary_passed : ℕ :=
        (cond (primary_pe_check inp) 1 0) + (cond (primary_atm_pe_check inp) 1 0) +
        (cond inp.volume_spike 1 0)
      if primary_passed < MIN_PRIMARY_CHECKS then none
      else
        let confidence : ℤ :=
          min (40
            + (cond (primary_pe_check inp) (if inp.oi_strength = .strong then 25 else 20) 0)
            + (cond (primary_atm_pe_check inp) 20 0)
            + (cond inp.volume_spike 15 0)
            + truncQ ((v.2 : ℚ) / 5)
            + vel.conf + otm.2.2 + scb.1 + pb.2
            + min ((bonus_pe_count inp : ℤ) * 2) 15) 98
        if confidence < MIN_CONFIDENCE then none
        else
          some { signal_type := .PE_BUY, timestamp := now,
                 entry_price := inp.futures_price,
                 target_price := inp.futures_price - (truncQ (inp.atr * ATR_TARGET_MULTIPLIER) : ℚ),
                 stop_loss := inp.futures_price +
                   (truncQ (inp.atr * (if inp.gamma_zone then ATR_SL_GAMMA_MULTIPLIER
                                       else ATR_SL_MULTIPLIER)) : ℚ),
                 atm_strike := inp.atm_strike, recommended_strike := inp.atm_strike,
                 option_premium := inp.atm_pe_ltp.getD 150,
                 premium_sl := if USE_PREMIUM_SL then
                     (inp.atm_pe_ltp.getD 150) * (1 - PREMIUM_SL_PERCENT / 100) else 0,
                 vwap := inp.vwap, vwap_distance := inp.vwap_distance, vwap_score := v.2,
                 atr := inp.atr,
                 oi_5m := inp.pe_total_5m, oi_15m := inp.pe_total_15m, oi_30m := inp.pe_total_30m,
                 oi_strength := inp.oi_strength,
                 atm_ce_change := inp.atm_ce_15m, atm_pe_change := inp.atm_pe_15m,
                 pcr := inp.pcr, pcr_bias := pb.1,
                 volume_spike := inp.volume_spike, vol_rate := inp.vol_rate,
                 order_flow := inp.order_flow,
                 confidence := confidence,
                 primary_checks := primary_passed, bonus_checks := bonus_pe_count inp,
                 oi_scen_tag := scb.2,
                 velocity_pattern := vel.pattern, velocity_strength := vel.strength,
                 is_expiry_day := inp.gamma_zone }

/-- `SignalGenerator.generate`: market-timing gate, reversal gate, trap
gate, then CE first and PE second (first non-null wins). -/
def generate (inp : GenInput) (now : ℚ) : Option Signal :=
  if check_market_timing now = false then none
  else if detect_reversal inp.atm_ce_15m inp.atm_pe_15m inp.has_15m_atm then none
  else if detect_trap inp.ce_total_15m inp.pe_total_15m inp.has_15m_total then none
  else
    match check_ce_buy inp now with
    | some s => some s
    | none => check_pe_buy inp now

-- ==================== signal_engine.py : SignalValidator ====================

/-- The validator's process-scoped memory (`last_signal_time`,
`last_signal_strike`, `last_signal_type`), all set together by
`record_signal` and `None` before the first executed signal. -/
def ValidatorState := Option (ℚ × ℤ × SignalType)

/-- `SignalValidator.record_signal`. -/
def record_signal (sig : Signal) : ValidatorState :=
  some (sig.timestamp, sig.recommended_strike, sig.signal_type)

/-- `SignalValidator.should_execute`: `time_since_last` is the signed
difference of the timestamps in minutes. -/
def should_execute (st : ValidatorState) (sig : Signal) : Bool :=
  match st with
  | none => true
  | some (t, k, d) =>
    if sig.timestamp - t < SAME_DIRECTION_COOLDOWN_MINUTES then false
    else if sig.recommended_strike = k ∧ sig.signal_type = d then
      (if sig.timestamp - t < SAME_STRIKE_COOLDOWN_MINUTES then false else true)
    else true

-- ==================== C4 : VWAP side hard gate ====================

/-- Claim C4: the VWAP side check is a hard gate — whenever the futures
price is not strictly above VWAP, `_check_ce_buy` produces no Signal, and
whenever it is not strictly below VWAP, `_check_pe_buy` produces no Signal,
regardless of every other input. -/
theorem c4_vwap_hard_gate :
    (∀ (inp : GenInput) (now : ℚ), inp.futures_price ≤ inp.vwap →
      check_ce_buy inp now = none) ∧
    (∀ (inp : GenInput) (now : ℚ), inp.vwap ≤ inp.futures_price →
      check_pe_buy inp now = none) := by
  constructor
  · intro inp now h
    simp only [check_ce_buy]
    rw [if_pos h]
  · intro inp now h
    simp only [check_pe_buy]
    rw [if_pos h]

-- ==================== C3 : confidence bounds ====================

theorem ce_conf_bounds (inp : GenInput) (now : ℚ) (sig : Signal)
    (h : check_ce_buy inp now = some sig) :
    0 ≤ sig.confidence ∧ sig.confidence ≤ 98 ∧ sig.confidence ≠ 100 ∧
      MIN_CONFIDENCE ≤ sig.confidence := by
  simp only [check_ce_buy] at h
  split_ifs at h
  all_goals
    rw [Option.some.injEq] at h
    subst h
    dsimp only
    simp only [MIN_CONFIDENCE] at *
    omega

theorem pe_conf_bounds (inp : GenInput) (now : ℚ) (sig : Signal)
    (h : check_pe_buy inp now = some sig) :
    0 ≤ sig.confidence ∧ sig.confidence ≤ 98 ∧ sig.confidence ≠ 100 ∧
      MIN_CONFIDENCE ≤ sig.confidence := by
  simp only [check_pe_buy] at h
  split_ifs at h
  all_goals
    rw [Option.some.injEq] at h
    subst h
    dsimp only
    simp only [MIN_CONFIDENCE] at *
    omega

/-- Claim C3: for every input combination that passes all gates (i.e. on
which the scorer actually emits a Signal), the confidence lies in [0, 98]
and is never exactly 100, on both the CE_BUY and PE_BUY paths; and every
candidate whose clamped confidence falls below the minimum-confidence floor
is discarded silently — equivalently, every emitted Signal carries
confidence ≥ MIN_CONFIDENCE, and a below-floor candidate yields `none`
rather than an error. -/
theorem c3_confidence_bounds :
    (∀ (inp : GenInput) (now : ℚ) (sig : Signal), check_ce_buy inp now = some sig →
      0 ≤ sig.confidence ∧ sig.confidence ≤ 98 ∧ sig.confidence ≠ 100 ∧
        MIN_CONFIDENCE ≤ sig.confidence) ∧
    (∀ (inp : GenInput) (now : ℚ) (sig : Signal), check_pe_buy inp now = some sig →
      0 ≤ sig.confidence ∧ sig.confidence ≤ 98 ∧ sig.confidence ≠ 100 ∧
        MIN_CONFIDENCE ≤ sig.confidence) :=
  ⟨ce_conf_bounds, pe_conf_bounds⟩

-- ==================== C10 : disabled volume spike / primary checks ====================

theorem ce_primary_two (inp : GenInput) (now : ℚ) (sig : Signal)
    (hvs : inp.volume_spike = false) (h : check_ce_buy inp now = some sig) :
    sig.primary_checks = 2 ∧ primary_ce_check inp = true ∧ primary_atm_ce_check inp = true := by
  simp only [check_ce_buy] at h
  split_ifs at h
  all_goals
    rw [Option.some.injEq] at h
    subst h
    dsimp only
    simp only [MIN_PRIMARY_CHECKS, hvs] at *
    cases hb1 : primary_ce_check inp <;> cases hb2 : primary_atm_ce_check inp <;>
      simp_all

theorem pe_primary_two (inp : GenInput) (now : ℚ) (sig : Signal)
    (hvs : inp.volume_spike = false) (h : check_pe_buy inp now = some sig) :
    sig.primary_checks = 2 ∧ primary_pe_check inp = true ∧ primary_atm_pe_check inp = true := by
  simp only [check_pe_buy] at h
  split_ifs at h
  all_goals
    rw [Option.some.injEq] at h
    subst h
    dsimp only
    simp only [MIN_PRIMARY_CHECKS, hvs] at *
    cases hb1 : primary_pe_check inp <;> cases hb2 : primary_atm_pe_check inp <;>
      simp_all

theorem generate_cases (inp : GenInput) (now : ℚ) (sig : Signal)
    (h : generate inp now = some sig) :
    check_ce_buy inp now = some sig ∨ check_pe_buy inp now = some sig := by
  simp only [generate] at h
  split_ifs at h
  cases hce : check_ce_buy inp now with
  | some s =>
    rw [hce] at h
    exact Or.inl h
  | none =>
    rw [hce] at h
    exact Or.inr h

/-- Claim C10: `detect_volume_spike` returns `(False, 1.0)` for every
input — and `scan_market` likewise hard-codes `vol_spike = False` — so the
volume-spike primary check never passes; consequently every Signal emitted
by `SignalGenerator.generate` under `volume_spike = false` has both
remaining primary checks (multi-timeframe total-OI and ATM-OI) passing and
records `primary_checks = 2`. -/
theorem c10_volume_spike_disabled :
    (∀ current avg : ℚ, detect_volume_spike current avg = (false, 1)) ∧
    (∀ (inp : GenInput) (now : ℚ) (sig : Signal), inp.volume_spike = false →
      generate inp now = some sig →
      sig.primary_checks = 2 ∧
        ((primary_ce_check inp = true ∧ primary_atm_ce_check inp = true) ∨
         (primary_pe_check inp = true ∧ primary_atm_pe_check inp = true))) := by
  refine ⟨fun _ _ => rfl, fun inp now sig hvs h => ?_⟩
  rcases generate_cases inp now sig h with hce | hpe
  · obtain ⟨h2, hb1, hb2⟩ := ce_primary_two inp now sig hvs hce
    exact ⟨h2, Or.inl ⟨hb1, hb2⟩⟩
  · obtain ⟨h2, hb1, hb2⟩ := pe_primary_two inp now sig hvs hpe
    exact ⟨h2, Or.inr ⟨hb1, hb2⟩⟩

-- ==================== C6 : reversal veto ====================

/-- Claim C6: whenever 15m ATM data is available and both the ATM call and
ATM put OI changes are below -5% simultaneously, `SignalGenerator.generate`
returns no Signal for either direction — the reversal veto fires before any
directional scoring, as normal control flow rather than an error. -/
theorem c6_reversal_veto (inp : GenInput) (now : ℚ)
    (h15 : inp.has_15m_atm = true)
    (hce : inp.atm_ce_15m < -5) (hpe : inp.atm_pe_15m < -5) :
    generate inp now = none := by
  have h1 : |inp.atm_ce_15m| > 5 := by
    rw [abs_of_neg (by linarith : inp.atm_ce_15m < 0)]; linarith
  have h2 : |inp.atm_pe_15m| > 5 := by
    rw [abs_of_neg (by linarith : inp.atm_pe_15m < 0)]; linarith
  have hrev : detect_reversal inp.atm_ce_15m inp.atm_pe_15m inp.has_15m_atm = true := by
    rw [h15]
    unfold detect_reversal
    rw [if_neg (by simp), if_pos ⟨h1, h2⟩, if_pos ⟨by linarith, by linarith⟩]
  simp [generate, hrev]

/-- A fully-warmed baseline scan input: price ₹110 above VWAP ₹100 with
ATR 10, total call OI down 3%/6%/4% over 5m/15m/30m, ATM call OI down 4%,
neutral PCR, disabled volume spike. -/
def exampleInput : GenInput where
  spot_price := 24140
  futures_price := 110
  vwap := 100
  vwap_distance := 10
  pcr := 1
  atr := 10
  atm_strike := 24150
  atm_ce_ltp := none
  atm_pe_ltp := none
  strikes := []
  ce_total_5m := -3
  pe_total_5m := 0
  ce_total_15m := -6
  pe_total_15m := 0
  ce_total_30m := -4
  pe_total_30m := 0
  atm_ce_5m := 0
  atm_pe_5m := 0
  atm_ce_15m := -4
  atm_pe_15m := 0
  has_5m_total := true
  has_15m_total := true
  has_30m_total := true
  has_5m_atm := true
  has_15m_atm := true
  volume_spike := false
  vol_rate := 1
  order_flow := 1
  candle_size := 0
  gamma_zone := false
  consec_green := 0
  consec_red := 0
  multi_tf := false
  oi_strength := .weak
  oi_scen := none

/-- Witness for C6 at the spec's example values
(`atmCE15m = -6.0, atmPE15m = -5.5`). -/
theorem c6_reversal_veto_witness :
    generate { exampleInput with atm_ce_15m := -6, atm_pe_15m := -11/2 } 600 = none :=
  c6_reversal_veto { exampleInput with atm_ce_15m := -6, atm_pe_15m := -11/2 } 600
    rfl (by norm_num) (by norm_num)

/-- Witness for C4: at-VWAP price blocks the CE path, above-VWAP price
blocks the PE path. -/
theorem c4_vwap_hard_gate_witness :
    check_ce_buy { exampleInput with futures_price := 100 } 600 = none ∧
    check_pe_buy exampleInput 600 = none :=
  ⟨c4_vwap_hard_gate.1 { exampleInput with futures_price := 100 } 600 (by norm_num [exampleInput]),
   c4_vwap_hard_gate.2 exampleInput 600 (by norm_num [exampleInput])⟩

/-- The Signal that `_check_ce_buy` emits on `exampleInput` at clock 600:
VWAP score 86, ACCELERATION velocity (+10), confidence clamped to 98,
2 primary and 2 bonus checks. -/
def exampleCESignal : Signal where
  signal_type := .CE_BUY
  timestamp := 600
  entry_price := 110
  target_price := 135
  stop_loss := 95
  atm_strike := 24150
  recommended_strike := 24150
  option_premium := 150
  premium_sl := 105
  vwap := 100
  vwap_distance := 10
  vwap_score := 86
  atr := 10
  oi_5m := -3
  oi_15m := -6
  oi_30m := -4
  oi_strength := .weak
  atm_ce_change := -4
  atm_pe_change := 0
  pcr := 1
  pcr_bias := .NEUTRAL
  volume_spike := false
  vol_rate := 1
  order_flow := 1
  confidence := 98
  primary_checks := 2
  bonus_checks := 2
  oi_scen_tag := none
  velocity_pattern := .ACCELERATION
  velocity_strength := .vsMedium
  is_expiry_day := false

theorem exampleCE_eval : check_ce_buy exampleInput 600 = some exampleCESignal := by
  have h6 : |(-6 : ℚ)| = 6 := by rw [abs_of_nonpos (by norm_num)]; norm_num
  have h4 : |(-4 : ℚ)| = 4 := by rw [abs_of_nonpos (by norm_num)]; norm_num
  have hw : (OIStrength.weak = OIStrength.strong) = False := by simp
  have hv1 : (VelocityPattern.ACCELERATION = VelocityPattern.DECELERATION) = False := by simp
  have hv2 : (VelocityPattern.ACCELERATION = VelocityPattern.EXHAUSTION) = False := by simp
  norm_num [hw, hv1, hv2, check_ce_buy, exampleInput, exampleCESignal, validate_signal_with_vwap,
    get_pcr_bias, classify_oi_velocity, analyze_otm_levels, ce_scen_boost,
    primary_ce_check, primary_atm_ce_check, primary_30m_ce_check, bonus_ce_count,
    truncQ, min_def, max_def, h6, h4, VWAP_STRICT_MODE, VWAP_DISTANCE_MAX_ATR_MULTIPLE,
    MIN_VWAP_SCORE, MIN_OI_5M_FOR_ENTRY, MIN_OI_15M_FOR_ENTRY, MIN_OI_30M_FOR_ENTRY,
    STRONG_OI_5M_THRESHOLD, ATM_OI_THRESHOLD, MIN_CANDLE_SIZE, PCR_BULLISH,
    VOL_SPIKE_STRONG, MIN_PRIMARY_CHECKS, MIN_CONFIDENCE, PCR_OVERHEATED,
    PCR_BALANCED_BULL, PCR_NEUTRAL_HIGH, PCR_BALANCED_BEAR,
    VELOCITY_ACCELERATION_MIN, VELOCITY_ACCELERATION_STRONG, VELOCITY_DECELERATION_MIN,
    VELOCITY_MONSTER_15M, VELOCITY_MONSTER_30M, VELOCITY_EXHAUSTION_30M,
    VELOCITY_EXHAUSTION_15M, ATR_TARGET_MULTIPLIER, ATR_SL_MULTIPLIER,
    ATR_SL_GAMMA_MULTIPLIER, USE_PREMIUM_SL, PREMIUM_SL_PERCENT,
    OTM_HIGH_OI_THRESHOLD, OTM_RESISTANCE_OFFSET, OTM_SUPPORT_OFFSET]

/-- Witness for C3 at a concrete gate-passing input: the emitted CE Signal
has confidence 98 ∈ [0, 98], ≠ 100 and above the floor. -/
theorem c3_confidence_bounds_witness :
    0 ≤ exampleCESignal.confidence ∧ exampleCESignal.confidence ≤ 98 ∧
      exampleCESignal.confidence ≠ 100 ∧ MIN_CONFIDENCE ≤ exampleCESignal.confidence :=
  c3_confidence_bounds.1 exampleInput 600 exampleCESignal exampleCE_eval

theorem exampleGen_eval : generate exampleInput 600 = some exampleCESignal := by
  have h6 : |(-6 : ℚ)| = 6 := by rw [abs_of_nonpos (by norm_num)]; norm_num
  have h4 : |(-4 : ℚ)| = 4 := by rw [abs_of_nonpos (by norm_num)]; norm_num
  have hres : detect_reversal exampleInput.atm_ce_15m exampleInput.atm_pe_15m
      exampleInput.has_15m_atm = false := by
    norm_num [detect_reversal, exampleInput, h4]
  have htrap : detect_trap exampleInput.ce_total_15m exampleInput.pe_total_15m
      exampleInput.has_15m_total = false := by
    norm_num [detect_trap, exampleInput, h6]
  norm_num [generate, check_market_timing, hres, htrap, exampleCE_eval]

/-- Witness for C10: on the concrete gate-passing input (with the disabled
volume spike), the emitted Signal records exactly 2 primary checks. -/
theorem c10_volume_spike_disabled_witness :
    detect_volume_spike 2 1 = (false, 1) ∧
    exampleCESignal.primary_checks = 2 ∧
      ((primary_ce_check exampleInput = true ∧ primary_atm_ce_check exampleInput = true) ∨
       (primary_pe_check exampleInput = true ∧ primary_atm_pe_check exampleInput = true)) :=
  ⟨c10_volume_spike_disabled.1 2 1,
   c10_volume_spike_disabled.2 exampleInput 600 exampleCESignal rfl exampleGen_eval⟩

-- ==================== C7 : validator cooldowns ====================

/-- A CE_BUY signal at strike 24150 with timestamp `t` (minutes), used to
instantiate the validator scenario of the claim. -/
def sampleSignal (t : ℚ) : Signal where
  signal_type := .CE_BUY
  timestamp := t
  entry_price := 110
  target_price := 135
  stop_loss := 95
  atm_strike := 24150
  recommended_strike := 24150
  option_premium := 150
  premium_sl := 105
  vwap := 100
  vwap_distance := 10
  vwap_score := 86
  atr := 10
  oi_5m := -3
  oi_15m := -6
  oi_30m := -4
  oi_strength := .weak
  atm_ce_change := -4
  atm_pe_change := 0
  pcr := 1
  pcr_bias := .NEUTRAL
  volume_spike := false
  vol_rate := 1
  order_flow := 1
  confidence := 98
  primary_checks := 2
  bonus_checks := 2
  oi_scen_tag := none
  velocity_pattern := .ACCELERATION
  velocity_strength := .vsMedium
  is_expiry_day := false

/-- Claim C7: `SignalValidator.should_execute` accepts the first-ever
signal unconditionally; thereafter it rejects a candidate iff the time
since the last recorded signal is below the global cooldown
(`SAME_DIRECTION_COOLDOWN_MINUTES`), or the candidate repeats the last
signal's strike and direction within the longer same-strike cooldown.  In
particular, after a first CE_BUY at `t0` on strike 24150, an identical
candidate at `t0 + 2` min is rejected and one at
`t0 + (SAME_STRIKE_COOLDOWN + 1)` min is accepted. -/
theorem c7_validator_cooldowns :
    (∀ sig : Signal, should_execute none sig = true) ∧
    (∀ (t : ℚ) (k : ℤ) (d : SignalType) (sig : Signal),
      should_execute (some (t, k, d)) sig = false ↔
        (sig.timestamp - t < SAME_DIRECTION_COOLDOWN_MINUTES ∨
         (sig.recommended_strike = k ∧ sig.signal_type = d ∧
          sig.timestamp - t < SAME_STRIKE_COOLDOWN_MINUTES))) ∧
    (∀ t0 : ℚ,
      should_execute (record_signal (sampleSignal t0)) (sampleSignal (t0 + 2)) = false ∧
      should_execute (record_signal (sampleSignal t0))
        (sampleSignal (t0 + (SAME_STRIKE_COOLDOWN_MINUTES + 1))) = true) := by
  refine ⟨fun _ => rfl, ?_, ?_⟩
  · intro t k d sig
    simp only [should_execute]
    split_ifs with h1 h2 h3
    · exact iff_of_true rfl (Or.inl h1)
    · exact iff_of_true rfl (Or.inr ⟨h2.1, h2.2, h3⟩)
    · refine iff_of_false (by simp) ?_
      rintro (hlt | ⟨hk, hd, hlt⟩)
      · exact h1 hlt
      · exact h3 hlt
    · refine iff_of_false (by simp) ?_
      rintro (hlt | ⟨hk, hd, hlt⟩)
      · exact h1 hlt
      · exact h2 ⟨hk, hd⟩
  · intro t0
    constructor
    · norm_num [should_execute, record_signal, sampleSignal,
        SAME_DIRECTION_COOLDOWN_MINUTES]
    · norm_num [should_execute, record_signal, sampleSignal,
        SAME_DIRECTION_COOLDOWN_MINUTES, SAME_STRIKE_COOLDOWN_MINUTES]

/-- Witness for C7 at `t0 = 0`. -/
theorem c7_validator_cooldowns_witness :
    should_execute (record_signal (sampleSignal 0)) (sampleSignal (0 + 2)) = false ∧
    should_execute (record_signal (sampleSignal 0))
      (sampleSignal (0 + (SAME_STRIKE_COOLDOWN_MINUTES + 1))) = true :=
  c7_validator_cooldowns.2.2 0

-- ==================== C9 : per-cycle indicator computation ====================

/-- The raw market data of one scan cycle as consumed by the OI-change /
scenario / velocity computations of `scan_market`: current total and ATM
OI readings, plus the 5m price change fed to `analyze_oi_with_price`. -/
structure RawMarket where
  total_ce : ℤ
  total_pe : ℤ
  atm_ce : ℤ
  atm_pe : ℤ
  price_change : ℚ
deriving DecidableEq, Repr

/-- The derived indicator bundle of one scan cycle: OI change percentages at
each horizon with their availability flags, the price-aware OI scenario
classification, and the CE/PE velocity classifications. -/
structure CycleOut where
  ce_5m : ℚ
  pe_5m : ℚ
  atm_ce_5m : ℚ
  atm_pe_5m : ℚ
  ce_15m : ℚ
  pe_15m : ℚ
  atm_ce_15m : ℚ
  atm_pe_15m : ℚ
  ce_30m : ℚ
  pe_30m : ℚ
  has_5m : Bool
  has_15m : Bool
  has_30m : Bool
  scen : OIScen
  vel_ce : VelocityResult
  vel_pe : VelocityResult

/-- The per-cycle indicator computation of `NiftyTradingBot.scan_market`:
three tracker lookbacks (5m/15m/30m) against the wall clock `nowSec`, the
percentage changes (`0.0` when a horizon is unavailable), the price-aware
scenario classification, and both velocity classifications. -/
def compute_cycle (history : List OISnapshot) (raw : RawMarket) (nowSec : ℤ) : CycleOut :=
  let c5 := get_comparison history nowSec 5
  let c15 := get_comparison history nowSec 15
  let c30 := get_comparison history nowSec 30
  let ce_5m := if c5.found then scan_oi_change (c5.total_ce : ℚ) (raw.total_ce : ℚ) else 0
  let pe_5m := if c5.found then scan_oi_change (c5.total_pe : ℚ) (raw.total_pe : ℚ) else 0
  let atm_ce_5m := if c5.found then scan_oi_change (c5.atm_ce : ℚ) (raw.atm_ce : ℚ) else 0
  let atm_pe_5m := if c5.found then scan_oi_change (c5.atm_pe : ℚ) (raw.atm_pe : ℚ) else 0
  let ce_15m := if c15.found then scan_oi_change (c15.total_ce : ℚ) (raw.total_ce : ℚ) else 0
  let pe_15m := if c15.found then scan_oi_change (c15.total_pe : ℚ) (raw.total_pe : ℚ) else 0
  let atm_ce_15m := if c15.found then scan_oi_change (c15.atm_ce : ℚ) (raw.atm_ce : ℚ) else 0
  let atm_pe_15m := if c15.found then scan_oi_change (c15.atm_pe : ℚ) (raw.atm_pe : ℚ) else 0
  let ce_30m := if c30.found then scan_oi_change (c30.total_ce : ℚ) (raw.total_ce : ℚ) else 0
  let pe_30m := if c30.found then scan_oi_change (c30.total_pe : ℚ) (raw.total_pe : ℚ) else 0
  { ce_5m := ce_5m, pe_5m := pe_5m, atm_ce_5m := atm_ce_5m, atm_pe_5m := atm_pe_5m
    ce_15m := ce_15m, pe_15m := pe_15m, atm_ce_15m := atm_ce_15m, atm_pe_15m := atm_pe_15m
    ce_30m := ce_30m, pe_30m := pe_30m
    has_5m := c5.found, has_15m := c15.found, has_30m := c30.found
    scen := analyze_oi_with_price ce_5m ce_15m pe_5m pe_15m raw.price_change
    vel_ce := classify_oi_velocity ce_5m ce_15m ce_30m c30.found .CE
    vel_pe := classify_oi_velocity pe_5m pe_15m pe_30m c30.found .PE }

theorem get_comparison_same_minute (history : List OISnapshot) (t1 t2 m : ℤ)
    (h : Int.ediv t1 60 = Int.ediv t2 60) :
    get_comparison history t1 m = get_comparison history t2 m := by
  unfold get_comparison
  have e1 : Int.ediv (t1 - 60 * m) 60 = Int.ediv t1 60 - m := by
    rw [show t1 - 60 * m = t1 + -m * 60 by ring]
    show (t1 + -m * 60) / 60 = t1 / 60 - m
    rw [Int.add_mul_ediv_right t1 (-m) (by norm_num : (60 : ℤ) ≠ 0)]
    ring
  have e2 : Int.ediv (t2 - 60 * m) 60 = Int.ediv t2 60 - m := by
    rw [show t2 - 60 * m = t2 + -m * 60 by ring]
    show (t2 + -m * 60) / 60 = t2 / 60 - m
    rw [Int.add_mul_ediv_right t2 (-m) (by norm_num : (60 : ℤ) ≠ 0)]
    ring
  rw [e1, e2, h]

/-- Claim C9 (amended): the per-cycle indicator computation is a pure
function of the snapshot-store state, the raw market input AND the current
clock minute — two runs on the same store state and raw input whose clock
readings fall in the same wall-clock minute yield identical outputs.  (Two
runs in different minutes may differ, because the lookback targets shift;
see the counterexample.) -/
theorem c9_purity_amended (history : List OISnapshot) (raw : RawMarket) (t1 t2 : ℤ)
    (h : Int.ediv t1 60 = Int.ediv t2 60) :
    compute_cycle history raw t1 = compute_cycle history raw t2 := by
  simp only [compute_cycle]
  rw [get_comparison_same_minute history t1 t2 5 h,
    get_comparison_same_minute history t1 t2 15 h,
    get_comparison_same_minute history t1 t2 30 h]

/-- Claim C9 fails as stated on the code: `get_comparison` reads the wall
clock internally, so re-running the identical computation on the SAME store
state and SAME raw input at a later clock reading (minute 15 vs minute 19)
changes the output — the 5m lookback finds the snapshot at minute 10 in the
first run and nothing in the second.  The computation is therefore not a
pure function of store state and raw input alone. -/
theorem c9_purity_counterexample :
    (compute_cycle [⟨0, 0, 0, 0, 0, 0⟩, ⟨10, 0, 0, 0, 0, 0⟩] ⟨0, 0, 0, 0, 0⟩ 900).has_5m
        = true ∧
    (compute_cycle [⟨0, 0, 0, 0, 0, 0⟩, ⟨10, 0, 0, 0, 0, 0⟩] ⟨0, 0, 0, 0, 0⟩ 1140).has_5m
        = false ∧
    compute_cycle [⟨0, 0, 0, 0, 0, 0⟩, ⟨10, 0, 0, 0, 0, 0⟩] ⟨0, 0, 0, 0, 0⟩ 900 ≠
      compute_cycle [⟨0, 0, 0, 0, 0, 0⟩, ⟨10, 0, 0, 0, 0, 0⟩] ⟨0, 0, 0, 0, 0⟩ 1140 := by
  have h1 : (compute_cycle [⟨0, 0, 0, 0, 0, 0⟩, ⟨10, 0, 0, 0, 0, 0⟩]
      ⟨0, 0, 0, 0, 0⟩ 900).has_5m = true := rfl
  have h2 : (compute_cycle [⟨0, 0, 0, 0, 0, 0⟩, ⟨10, 0, 0, 0, 0, 0⟩]
      ⟨0, 0, 0, 0, 0⟩ 1140).has_5m = false := rfl
  refine ⟨h1, h2, fun hc => ?_⟩
  rw [hc, h2] at h1
  exact Bool.noConfusion h1

/-- Witness for C9 (amended): two clock readings inside minute 15
(900 s and 930 s) give identical outputs. -/
theorem c9_purity_amended_witness :
    compute_cycle [⟨0, 0, 0, 0, 0, 0⟩, ⟨10, 0, 0, 0, 0, 0⟩] ⟨0, 0, 0, 0, 0⟩ 900 =
      compute_cycle [⟨0, 0, 0, 0, 0, 0⟩, ⟨10, 0, 0, 0, 0, 0⟩] ⟨0, 0, 0, 0, 0⟩ 930 :=
  c9_purity_amended [⟨0, 0, 0, 0, 0, 0⟩, ⟨10, 0, 0, 0, 0, 0⟩] ⟨0, 0, 0, 0, 0⟩ 900 930
    (by decide)
